import Mathlib

/-!
# Verification of `src/04_ml_analysis.py` (DSCI522_group315)

A shallow embedding of the single-script ML pipeline in
`src/04_ml_analysis.py`.  Tabular data (pandas DataFrames) is modelled as a
list of column names together with a list of rows of rational values; the
scikit-learn estimators the script calls (`RFECV`, `LogisticRegression`,
`RFE`) are modelled as an oracle structure `MLLib` whose fields carry the
documented shape contracts of the library (`support_` has one entry per
input feature column; for a binary task `coef_.flatten()` has one entry per
fitted feature column).  Floating-point values are modelled as rationals;
`np.round_(x, decimals=4)` and the built-in `round(x, 4)` of Python 3 are
modelled by exact round-half-to-even on rationals.

The control flow of `main` (lines 70-175) — the four loader assertions, the
feature-selection fit, the two model fits, the post-condition assertions,
the error-curve loop of `RFE` fits, and the four artifact writes at the
end — is embedded as `mainTrace`, which records the `fit` and file `write`
events of a run in order, together with the identity of the first failing
assertion, if any.
-/

/-- Model of a pandas DataFrame: named numeric columns, rows are samples.
`cols` lists the column names in order; each row lists the values of one
sample in column order. -/
structure DataFrame where
  cols : List String
  rows : List (List ℚ)
deriving DecidableEq

/-- Model of `df.shape[0]` — the number of rows. -/
def DataFrame.shape0 (df : DataFrame) : Nat := df.rows.length

/-- Model of `df.shape[1]` — the number of columns. -/
def DataFrame.shape1 (df : DataFrame) : Nat := df.cols.length

/-- The label values of a one-column label table: the first entry of each
row (how `y_train` / `y_test` enter `fit` and `score`). -/
def DataFrame.labels (df : DataFrame) : List ℚ := df.rows.map (fun r => r.headI)

/-- Boolean-mask projection of a list, as applied to the column axis by
`X.loc[:, mask]`: keep the entries whose mask bit is `True`, in order. -/
def maskFilter : List Bool → List α → List α
  | true :: m, x :: xs => x :: maskFilter m xs
  | false :: m, _ :: xs => maskFilter m xs
  | _, _ => []

/-- Model of `X.loc[:, mask]` (lines 98-99) — keep only the columns whose
mask bit is `True`; the rows (samples) are kept in place, each projected to
the selected columns. -/
def selectCols (df : DataFrame) (m : List Bool) : DataFrame :=
  { cols := maskFilter m df.cols, rows := df.rows.map (maskFilter m) }

/-- Model of `rfe_cv.n_features_` — the number of selected features, i.e.
the number of `True` entries of the support mask. -/
def nFeatures (m : List Bool) : Nat := (m.filter (fun b => b)).length

/-- Round half to even to the nearest integer (the rounding used by both
`np.round_` and the built-in `round` of Python 3): the tie at one half goes
to the even neighbour. -/
def roundHalfEven (x : ℚ) : ℤ :=
  if x - ⌊x⌋ < 1/2 then ⌊x⌋
  else if 1/2 < x - ⌊x⌋ then ⌊x⌋ + 1
  else if ⌊x⌋ % 2 = 0 then ⌊x⌋ else ⌊x⌋ + 1

/-- Model of `np.round_(x, decimals = 4)` and `round(x, 4)` — round to 4
decimal places, half to even. -/
def round4 (x : ℚ) : ℚ := (roundHalfEven (x * 10000) : ℚ) / 10000

/-- Model of `estimator.score(X, y)` for a classifier: mean accuracy, the
fraction of predictions that equal the true labels. -/
def score (preds : List ℚ) (yl : List ℚ) : ℚ :=
  ((preds.zip yl).countP (fun p => p.1 == p.2) : ℚ) / (yl.length : ℚ)

/-- The scikit-learn estimators used by the script, as oracles.  Each fit
is identified by the data it was fit on; the structure carries the
documented shape contracts of the library as fields.
* `rfecvSupport X y` — the attribute `support_` of
  `RFECV(estimator=LogisticRegression(solver=liblinear), cv=10).fit(X, y)`
  (line 86-88);
* `lrCoef X y` — `LogisticRegression(solver=liblinear).fit(X, y).coef_`
  flattened (line 110); for the binary task it has one coefficient per
  feature column of `X`;
* `lrPredict Xf yf X` — the predictions on `X` of the logistic regression
  fit on `(Xf, yf)` (behind `.score`, lines 116-119);
* `rfePredict k Xf yf X` — the predictions on `X` of
  `RFE(estimator=LogisticRegression(solver=liblinear),
  n_features_to_select=k).fit(Xf, yf)` (lines 142-145). -/
structure MLLib where
  rfecvSupport : DataFrame → DataFrame → List Bool
  lrCoef : DataFrame → DataFrame → List ℚ
  lrPredict : DataFrame → DataFrame → DataFrame → List ℚ
  rfePredict : Nat → DataFrame → DataFrame → DataFrame → List ℚ
  rfecvSupport_length : ∀ X y, (rfecvSupport X y).length = X.cols.length
  lrCoef_length : ∀ X y, (lrCoef X y).length = X.cols.length

/-- The row ordering of the weight table: descending absolute weight
(`weight_df.Weights.abs().sort_values(ascending=False)`, line 113). -/
def wOrder (a b : String × ℚ) : Prop := |b.2| ≤ |a.2|

instance : DecidableRel wOrder :=
  fun a b => inferInstanceAs (Decidable (|b.2| ≤ |a.2|))

instance : IsTotal (String × ℚ) wOrder :=
  ⟨fun a b => le_total |b.2| |a.2|⟩

instance : IsTrans (String × ℚ) wOrder :=
  ⟨fun _ _ _ h1 h2 => le_trans h2 h1⟩

/-- Lines 109-112: the selected feature names paired with the coefficients
of the reduced model rounded to 4 decimals
(`DataFrame of X_train_sel.columns and np.round_(lr_select.coef_.flatten(), decimals=4)`). -/
def weightPairs (lib : MLLib) (Xsel ytr : DataFrame) : List (String × ℚ) :=
  Xsel.cols.zip ((lib.lrCoef Xsel ytr).map round4)

/-- Line 113: the weight rows reindexed by descending absolute weight
(`weight_df.reindex(weight_df.Weights.abs().sort_values(ascending=False).index)`).
`sort_values` uses an unstable quicksort, so the order among tied absolute
weights is unspecified in the source; insertion sort realizes one
admissible order. -/
def weightDf (lib : MLLib) (Xsel ytr : DataFrame) : List (String × ℚ) :=
  List.insertionSort wOrder (weightPairs lib Xsel ytr)

/-- A two-column pandas DataFrame built from a dict literal with two keys
(`weight_df` line 112 and `results` line 123): the column names, and the
rows as pairs. -/
structure PairTable where
  colNames : List String
  rows : List (String × ℚ)
deriving DecidableEq

/-- Model of Python `len(t)` on a table — the number of rows. -/
def PairTable.len (t : PairTable) : Nat := t.rows.length

/-- Model of `t.shape[1]` on a table — the number of columns. -/
def PairTable.shape1 (t : PairTable) : Nat := t.colNames.length

/-- Line 112-113: `weight_df`, the table of features and weights, sorted by
descending absolute weight. -/
def weightTable (lib : MLLib) (Xsel ytr : DataFrame) : PairTable :=
  { colNames := ["Features", "Weights"], rows := weightDf lib Xsel ytr }

/-- Line 121: the four fixed row labels of the results table. -/
def modelLabels : List String :=
  ["Training Accuracy - No Feature Selection",
   "Testing Accuracy - No Feature Selection",
   "Training Accuracy - Selected Features",
   "Testing Accuracy - Selected Features"]

/-- Lines 116-122: the four accuracy scores, each rounded to 4 decimal
places (`round(lr.score(..), 4)`), in the order of `modelLabels`: train and
test accuracy of the full model, then train and test accuracy of the
reduced model on the selected columns. -/
def scoresOf (lib : MLLib) (Xtr ytr Xte yte : DataFrame) : List ℚ :=
  let support := lib.rfecvSupport Xtr ytr
  let Xtr_sel := selectCols Xtr support
  let Xte_sel := selectCols Xte support
  [round4 (score (lib.lrPredict Xtr ytr Xtr) ytr.labels),
   round4 (score (lib.lrPredict Xtr ytr Xte) yte.labels),
   round4 (score (lib.lrPredict Xtr_sel ytr Xtr_sel) ytr.labels),
   round4 (score (lib.lrPredict Xtr_sel ytr Xte_sel) yte.labels)]

/-- Line 123: `results`, the table pairing each model label with its
score; the columns are `Model` and `Score`. -/
def resultsTable (lib : MLLib) (Xtr ytr Xte yte : DataFrame) : PairTable :=
  { colNames := ["Model", "Score"],
    rows := modelLabels.zip (scoresOf lib Xtr ytr Xte yte) }

/-- Lines 137-148: for each `i in range(1, len(X_train.columns))`, fit
`RFE(LogisticRegression, n_features_to_select=i)` on the training data and
record `(i, 1 - score on train, 1 - score on test)`. -/
def errorCurve (lib : MLLib) (Xtr ytr Xte yte : DataFrame) : List (Nat × ℚ × ℚ) :=
  (List.range' 1 (Xtr.cols.length - 1)).map (fun i =>
    (i, 1 - score (lib.rfePredict i Xtr ytr Xtr) ytr.labels,
        1 - score (lib.rfePredict i Xtr ytr Xte) yte.labels))

/-- Line 163: the fixed `display_labels` list passed to
`plot_confusion_matrix` for the reduced model on the test set. -/
def displayLabels : List String :=
  ["Blue wins", "Red Wins", "Blue Wins", "Red Wins"]

/-- The number of distinct classes appearing in a label list — the side
length of the confusion matrix drawn for those labels. -/
def numClasses (yl : List ℚ) : Nat := yl.dedup.length

/-- An observable action of a run of `main`: fitting an estimator, or
writing an output artifact file. -/
inductive Event where
  | fit (model : String)
  | write (file : String)
deriving DecidableEq

/-- The identity of a failing `assert` of `main`, each with the descriptive
message of the source:
* `xShape` (line 76): test and train X data column counts do not match;
* `yShape` (line 77): test and train y data column counts do not match;
* `trainRows` (line 78): train X and y files are not the same length;
* `testRows` (line 79): test X and y files are not the same length;
* `selShape` (line 102): RFE not applied to both train and test sets;
* `resultsLen` (line 126): results is not the right length;
* `resultsWidth` (line 127): results is not the right width;
* `weightsLen` (line 130): weights is not the right length;
* `weightsWidth` (line 131): weights is not the right width. -/
inductive AssertMsg where
  | xShape
  | yShape
  | trainRows
  | testRows
  | selShape
  | resultsLen
  | resultsWidth
  | weightsLen
  | weightsWidth
deriving DecidableEq

/-- The run of `main` (lines 70-175) on the four loaded tables: the ordered
trace of `fit` and file `write` events, together with the first failing
assertion (`none` when the run completes).  Every `assert` of the script
appears as a guard, in source order; the writes (lines 172-175) happen
last. -/
def mainTrace (lib : MLLib) (Xtr ytr Xte yte : DataFrame) : List Event × Option AssertMsg :=
  -- line 76
  if Xtr.shape1 ≠ Xte.shape1 then ([], some AssertMsg.xShape)
  -- line 77
  else if ytr.shape1 ≠ yte.shape1 then ([], some AssertMsg.yShape)
  -- line 78
  else if Xtr.shape0 ≠ ytr.shape0 then ([], some AssertMsg.trainRows)
  -- line 79
  else if Xte.shape0 ≠ yte.shape0 then ([], some AssertMsg.testRows)
  -- lines 85-88: rfe_cv.fit(X_train, y_train); lines 98-99: column subsets
  else if (selectCols Xtr (lib.rfecvSupport Xtr ytr)).shape1
      ≠ (selectCols Xte (lib.rfecvSupport Xtr ytr)).shape1 then
    -- line 102
    ([Event.fit "rfe_cv"], some AssertMsg.selShape)
  -- lines 105-106: lr_normal.fit, lr_select.fit; lines 109-123: tables
  else if (resultsTable lib Xtr ytr Xte yte).len ≠ 4 then
    -- line 126
    ([Event.fit "rfe_cv", Event.fit "lr_normal", Event.fit "lr_select"],
     some AssertMsg.resultsLen)
  else if (resultsTable lib Xtr ytr Xte yte).shape1 ≠ 2 then
    -- line 127
    ([Event.fit "rfe_cv", Event.fit "lr_normal", Event.fit "lr_select"],
     some AssertMsg.resultsWidth)
  else if (weightTable lib (selectCols Xtr (lib.rfecvSupport Xtr ytr)) ytr).len
      ≠ nFeatures (lib.rfecvSupport Xtr ytr) then
    -- line 130
    ([Event.fit "rfe_cv", Event.fit "lr_normal", Event.fit "lr_select"],
     some AssertMsg.weightsLen)
  else if (weightTable lib (selectCols Xtr (lib.rfecvSupport Xtr ytr)) ytr).shape1 ≠ 2 then
    -- line 131
    ([Event.fit "rfe_cv", Event.fit "lr_normal", Event.fit "lr_select"],
     some AssertMsg.weightsWidth)
  else
    -- lines 139-148 (one RFE fit per subset size), then lines 172-175
    ([Event.fit "rfe_cv", Event.fit "lr_normal", Event.fit "lr_select"]
       ++ (List.range' 1 (Xtr.shape1 - 1)).map (fun i => Event.fit ("rfe " ++ toString i))
       ++ [Event.write "confusion_matrix.png", Event.write "error.png",
           Event.write "weights.csv", Event.write "results.csv"], none)

/-- A concrete instance of the scikit-learn oracles, used to evaluate the
embedding on concrete inputs: select every feature, zero coefficients,
constant-zero predictions. -/
def trivLib : MLLib where
  rfecvSupport := fun X _ => X.cols.map (fun _ => true)
  lrCoef := fun X _ => X.cols.map (fun _ => 0)
  lrPredict := fun _ _ X => X.rows.map (fun _ => 0)
  rfePredict := fun _ _ _ X => X.rows.map (fun _ => 0)
  rfecvSupport_length := by intro X y; simp
  lrCoef_length := by intro X y; simp

/-- A one-feature training table with one sample. -/
def dfX1 : DataFrame := ⟨["f1"], [[1]]⟩

/-- A two-feature table with one sample. -/
def dfX2 : DataFrame := ⟨["f1", "f2"], [[1, 0]]⟩

/-- A one-column label table with one sample, label `0`. -/
def dfY1 : DataFrame := ⟨["Winner"], [[0]]⟩

/-! ## Helper lemmas -/

/-- Mean accuracy is nonnegative. -/
theorem score_nonneg (preds yl : List ℚ) : 0 ≤ score preds yl := by
  unfold score
  positivity

/-- The number of matching prediction-label pairs is at most the number of
labels. -/
theorem countP_zip_le (preds yl : List ℚ) :
    (preds.zip yl).countP (fun p => p.1 == p.2) ≤ yl.length :=
  (List.countP_le_length _).trans (by rw [List.length_zip]; exact Nat.min_le_right _ _)

/-- Mean accuracy is at most one. -/
theorem score_le_one (preds yl : List ℚ) : score preds yl ≤ 1 := by
  unfold score
  rcases Nat.eq_zero_or_pos yl.length with h | h
  · simp [h]
  · rw [div_le_one (by exact_mod_cast h)]
    exact_mod_cast countP_zip_le preds yl

/-- Round half to even of a nonnegative rational is nonnegative. -/
theorem roundHalfEven_nonneg {x : ℚ} (h : 0 ≤ x) : 0 ≤ roundHalfEven x := by
  have h0 : (0:ℤ) ≤ ⌊x⌋ := Int.floor_nonneg.mpr h
  unfold roundHalfEven
  split_ifs <;> omega

/-- Round half to even never overshoots an integer upper bound. -/
theorem roundHalfEven_le {x : ℚ} {n : ℤ} (h : x ≤ n) : roundHalfEven x ≤ n := by
  have hf : ⌊x⌋ ≤ n := by
    have h2 := Int.floor_mono h
    simpa using h2
  unfold roundHalfEven
  split_ifs with h1 h2 h3
  · exact hf
  all_goals
    have hfr : ⌊x⌋ ≤ x := Int.floor_le x
    have hhalf : (1:ℚ)/2 ≤ x - ⌊x⌋ := le_of_not_lt h1
    have hlt : ((⌊x⌋ : ℚ)) < ((n : ℚ)) := by linarith
    have hn : ⌊x⌋ < n := by exact_mod_cast hlt
    omega

/-- Rounding to 4 decimals preserves nonnegativity. -/
theorem round4_nonneg {x : ℚ} (h : 0 ≤ x) : 0 ≤ round4 x := by
  unfold round4
  have h1 : (0:ℤ) ≤ roundHalfEven (x * 10000) := roundHalfEven_nonneg (by positivity)
  have h2 : (0:ℚ) ≤ (roundHalfEven (x * 10000) : ℚ) := by exact_mod_cast h1
  positivity

/-- Rounding to 4 decimals preserves the upper bound one. -/
theorem round4_le_one {x : ℚ} (h : x ≤ 1) : round4 x ≤ 1 := by
  unfold round4
  have h1 : roundHalfEven (x * 10000) ≤ (10000 : ℤ) := by
    apply roundHalfEven_le
    push_cast
    linarith
  rw [div_le_one (by norm_num)]
  exact_mod_cast h1

/-- A value rounded to 4 decimal places is an integer multiple of
`1/10000`: multiplied by `10000` it has denominator one. -/
theorem round4_mul_den (x : ℚ) : (round4 x * 10000).den = 1 := by
  unfold round4
  rw [div_mul_cancel₀ _ (by norm_num : (10000:ℚ) ≠ 0)]
  exact Rat.den_intCast _

/-- The bundle of facts about a rounded accuracy: exact 4-decimal value,
and bounds zero and one. -/
theorem round4_score_props (preds yl : List ℚ) :
    (round4 (score preds yl) * 10000).den = 1 ∧
      0 ≤ round4 (score preds yl) ∧ round4 (score preds yl) ≤ 1 :=
  ⟨round4_mul_den _, round4_nonneg (score_nonneg _ _), round4_le_one (score_le_one _ _)⟩

/-- Mask projection applied to two lists of equal length yields lists of
equal length. -/
theorem maskFilter_length_eq (m : List Bool) :
    ∀ (xs : List α) (ys : List β), xs.length = ys.length →
      (maskFilter m xs).length = (maskFilter m ys).length := by
  induction m with
  | nil => intro xs ys _; rfl
  | cons b m ih =>
    intro xs ys h
    cases xs with
    | nil =>
      cases ys with
      | nil => cases b <;> rfl
      | cons y ys => simp at h
    | cons x xs =>
      cases ys with
      | nil => simp at h
      | cons y ys =>
        cases b <;> simp [maskFilter, ih xs ys (by simpa using h)]

/-- A member of the zip of a list with its own image under `f` pairs an
element with its image. -/
theorem snd_eq_of_mem_zip_map {l : List α} {f : α → β} {p : α × β}
    (h : p ∈ l.zip (l.map f)) : p.2 = f p.1 := by
  induction l with
  | nil => simp at h
  | cons a l ih =>
    simp only [List.map_cons, List.zip_cons_cons, List.mem_cons] at h
    rcases h with h | h
    · subst h; rfl
    · exact ih h

/-! ## Structure of the run trace -/

/-- Every run of `main` either completes — in which case all post-condition
assertions held, in particular the weight-table length equals the selected
feature count — or aborts on some assertion, in which case its trace holds
no file-write event. -/
theorem mainTrace_completes_or_aborts (lib : MLLib) (Xtr ytr Xte yte : DataFrame) :
    ((mainTrace lib Xtr ytr Xte yte).2 = none ∧
        (weightTable lib (selectCols Xtr (lib.rfecvSupport Xtr ytr)) ytr).len
          = nFeatures (lib.rfecvSupport Xtr ytr)) ∨
      ((mainTrace lib Xtr ytr Xte yte).2.isSome = true ∧
        ∀ f, Event.write f ∉ (mainTrace lib Xtr ytr Xte yte).1) := by
  by_cases h1 : Xtr.shape1 ≠ Xte.shape1
  · right; simp [mainTrace, h1]
  by_cases h2 : ytr.shape1 ≠ yte.shape1
  · right; simp [mainTrace, h1, h2]
  by_cases h3 : Xtr.shape0 ≠ ytr.shape0
  · right; simp [mainTrace, h1, h2, h3]
  by_cases h4 : Xte.shape0 ≠ yte.shape0
  · right; simp [mainTrace, h1, h2, h3, h4]
  by_cases h5 : (selectCols Xtr (lib.rfecvSupport Xtr ytr)).shape1
      ≠ (selectCols Xte (lib.rfecvSupport Xtr ytr)).shape1
  · right; simp [mainTrace, h1, h2, h3, h4, h5]
  by_cases h6 : (resultsTable lib Xtr ytr Xte yte).len ≠ 4
  · right; simp [mainTrace, h1, h2, h3, h4, h5, h6]
  by_cases h7 : (resultsTable lib Xtr ytr Xte yte).shape1 ≠ 2
  · right; simp [mainTrace, h1, h2, h3, h4, h5, h6, h7]
  by_cases h8 : (weightTable lib (selectCols Xtr (lib.rfecvSupport Xtr ytr)) ytr).len
      ≠ nFeatures (lib.rfecvSupport Xtr ytr)
  · right; simp [mainTrace, h1, h2, h3, h4, h5, h6, h7, h8]
  by_cases h9 : (weightTable lib (selectCols Xtr (lib.rfecvSupport Xtr ytr)) ytr).shape1 ≠ 2
  · right; simp [mainTrace, h1, h2, h3, h4, h5, h6, h7, h8, h9]
  · left
    refine ⟨?_, not_not.mp h8⟩
    simp [mainTrace, h1, h2, h3, h4, h5, h6, h7, h8, h9]

/-- On any input failing one of the four loader shape checks, the run
aborts immediately with an empty trace. -/
theorem mainTrace_loader_abort (lib : MLLib) (Xtr ytr Xte yte : DataFrame)
    (h : Xtr.shape1 ≠ Xte.shape1 ∨ ytr.shape1 ≠ yte.shape1 ∨
      Xtr.shape0 ≠ ytr.shape0 ∨ Xte.shape0 ≠ yte.shape0) :
    (mainTrace lib Xtr ytr Xte yte).1 = [] ∧
      (mainTrace lib Xtr ytr Xte yte).2.isSome = true := by
  by_cases h1 : Xtr.shape1 ≠ Xte.shape1
  · simp [mainTrace, h1]
  by_cases h2 : ytr.shape1 ≠ yte.shape1
  · simp [mainTrace, h1, h2]
  by_cases h3 : Xtr.shape0 ≠ ytr.shape0
  · simp [mainTrace, h1, h2, h3]
  · have h4 : Xte.shape0 ≠ yte.shape0 := by tauto
    simp [mainTrace, h1, h2, h3, h4]

/-! ## Claim theorems -/

/-- C1: the Reporter passes the fixed display-label list
`["Blue wins", "Red Wins", "Blue Wins", "Red Wins"]` to the confusion
matrix of the reduced model on the test set (line 163).  The list has four
entries — two of them duplicated up to capitalization — while the binary
winner task has exactly two classes, so the fixed label list is NOT
consistent with the two classes of the task. -/
theorem C1_displayLabels_not_binary :
    displayLabels.length = 4 ∧ numClasses [0, 1] = 2 ∧
      displayLabels.length ≠ numClasses [0, 1] ∧ ¬ displayLabels.Nodup := by
  refine ⟨rfl, by decide, by decide, by decide⟩

/-- C2: whenever a run of `main` aborts on a failed assertion, its trace
contains no file-write event: every assertion (lines 76-79, 102, 126-131)
is evaluated before the first write (lines 172-175), so no output artifact
is written. -/
theorem C2_failed_assert_no_writes (lib : MLLib) (Xtr ytr Xte yte : DataFrame)
    (h : (mainTrace lib Xtr ytr Xte yte).2.isSome = true) :
    ∀ f, Event.write f ∉ (mainTrace lib Xtr ytr Xte yte).1 := by
  rcases mainTrace_completes_or_aborts lib Xtr ytr Xte yte with ⟨hn, _⟩ | ⟨_, hw⟩
  · rw [hn] at h; simp at h
  · exact hw

/-- Evaluation of C2 on a concrete aborting input: train has one feature
column, test has two, so the line-76 assertion fails and no artifact file
is written. -/
theorem C2_failed_assert_no_writes_witness :
    (mainTrace trivLib dfX1 dfY1 dfX2 dfY1).2.isSome = true ∧
      Event.write "results.csv" ∉ (mainTrace trivLib dfX1 dfY1 dfX2 dfY1).1 :=
  ⟨by decide, C2_failed_assert_no_writes trivLib dfX1 dfY1 dfX2 dfY1 (by decide) "results.csv"⟩

/-- C3: on any input quadruple failing one of the four loader shape checks
(feature column counts, label column counts, or row counts within a
split), the run aborts and its trace contains no model-fit event: the
pipeline aborts before fitting any model. -/
theorem C3_shape_mismatch_aborts_before_fit (lib : MLLib) (Xtr ytr Xte yte : DataFrame)
    (h : Xtr.shape1 ≠ Xte.shape1 ∨ ytr.shape1 ≠ yte.shape1 ∨
      Xtr.shape0 ≠ ytr.shape0 ∨ Xte.shape0 ≠ yte.shape0) :
    (mainTrace lib Xtr ytr Xte yte).2.isSome = true ∧
      ∀ m, Event.fit m ∉ (mainTrace lib Xtr ytr Xte yte).1 := by
  obtain ⟨he, hs⟩ := mainTrace_loader_abort lib Xtr ytr Xte yte h
  exact ⟨hs, by simp [he]⟩

/-- Evaluation of C3 on a concrete mismatching input: train has one feature
column, test has two, and no model is fit. -/
theorem C3_shape_mismatch_witness :
    dfX1.shape1 ≠ dfX2.shape1 ∧
      Event.fit "rfe_cv" ∉ (mainTrace trivLib dfX1 dfY1 dfX2 dfY1).1 :=
  ⟨by decide,
   (C3_shape_mismatch_aborts_before_fit trivLib dfX1 dfY1 dfX2 dfY1
      (Or.inl (by decide))).2 "rfe_cv"⟩

/-- C4: the results table always has exactly 4 rows and 2 columns, and
every score value in it is an accuracy rounded to 4 decimal places (an
integer multiple of `1/10000`) lying in `[0, 1]`. -/
theorem C4_results_shape_and_bounds (lib : MLLib) (Xtr ytr Xte yte : DataFrame) :
    (resultsTable lib Xtr ytr Xte yte).len = 4 ∧
      (resultsTable lib Xtr ytr Xte yte).shape1 = 2 ∧
      ∀ p ∈ (resultsTable lib Xtr ytr Xte yte).rows,
        (p.2 * 10000).den = 1 ∧ 0 ≤ p.2 ∧ p.2 ≤ 1 := by
  refine ⟨rfl, rfl, ?_⟩
  intro p hp
  have h2 := (List.of_mem_zip hp).2
  simp only [scoresOf, List.mem_cons, List.not_mem_nil, or_false] at h2
  rcases h2 with h | h | h | h <;> rw [h] <;> exact round4_score_props _ _


/-- Rounding the exact score one gives one (concrete evaluation). -/
theorem round4_one : round4 1 = 1 := by
  norm_num [round4, roundHalfEven]

/-- Rounding zero gives zero (concrete evaluation). -/
theorem round4_zero : round4 0 = 0 := by
  norm_num [round4, roundHalfEven]

/-- Concrete evaluation: the trivial oracle scores accuracy one on the
one-sample data. -/
theorem score_triv_one : score [0] (dfY1.labels) = 1 := by
  norm_num [score, dfY1, DataFrame.labels, List.countP, List.countP.go]

/-- Concrete evaluation: the four scores of the trivial run are all one. -/
theorem scoresOf_triv : scoresOf trivLib dfX2 dfY1 dfX2 dfY1 = [1, 1, 1, 1] := by
  simp only [scoresOf, trivLib, dfX2, dfY1, selectCols, maskFilter, DataFrame.labels,
    List.map_cons, List.map_nil]
  norm_num [score, List.countP, List.countP.go, round4, roundHalfEven]

/-- Concrete evaluation: on the two-feature one-sample data the trivial
run passes every assertion and completes. -/
theorem mainTrace_triv_completes : (mainTrace trivLib dfX2 dfY1 dfX2 dfY1).2 = none := by
  norm_num [mainTrace, trivLib, dfX2, dfY1, DataFrame.shape0, DataFrame.shape1,
    selectCols, maskFilter, resultsTable, scoresOf, modelLabels, weightTable, weightDf,
    weightPairs, nFeatures, PairTable.len, PairTable.shape1, score, DataFrame.labels,
    round4, roundHalfEven, wOrder, List.insertionSort, List.orderedInsert,
    List.countP, List.countP.go]

/-- Evaluation of C4 on a concrete completed run: with the trivial oracle
and a perfectly predicted one-sample dataset, the first results row scores
accuracy 1, which is an exact 4-decimal value in the unit interval. -/
theorem C4_results_witness :
    ("Training Accuracy - No Feature Selection", (1:ℚ))
        ∈ (resultsTable trivLib dfX2 dfY1 dfX2 dfY1).rows ∧
      ((((1:ℚ)) * 10000).den = 1 ∧ (0:ℚ) ≤ (1:ℚ) ∧ (1:ℚ) ≤ 1) :=
  ⟨by simp [resultsTable, scoresOf_triv, modelLabels],
   (C4_results_shape_and_bounds trivLib dfX2 dfY1 dfX2 dfY1).2.2
     ("Training Accuracy - No Feature Selection", (1:ℚ))
     (by simp [resultsTable, scoresOf_triv, modelLabels])⟩

/-- C5: the weight table pairs each selected feature name with the reduced
model coefficient recorded for it (rounded to 4 decimals, line 110), and
its rows are ordered by descending absolute weight: the sorted table is a
permutation of the name-coefficient pairing, and consecutive rows have
non-increasing absolute weight. -/
theorem C5_weightDf_pairing_and_order (lib : MLLib) (Xsel ytr : DataFrame) :
    (weightDf lib Xsel ytr).Perm (weightPairs lib Xsel ytr) ∧
      (weightDf lib Xsel ytr).Pairwise (fun a b => |b.2| ≤ |a.2|) :=
  ⟨List.perm_insertionSort wOrder _, List.sorted_insertionSort wOrder _⟩

/-- C6: in every run that reaches the reporting stage (the trace
completes), the weight-table row count equals the number of `True` entries
of the selected support mask, and the table has exactly 2 columns; the
line-130/131 assertions abort any violating run. -/
theorem C6_weight_len_eq_selected (lib : MLLib) (Xtr ytr Xte yte : DataFrame)
    (h : (mainTrace lib Xtr ytr Xte yte).2 = none) :
    (weightTable lib (selectCols Xtr (lib.rfecvSupport Xtr ytr)) ytr).len
        = nFeatures (lib.rfecvSupport Xtr ytr) ∧
      (weightTable lib (selectCols Xtr (lib.rfecvSupport Xtr ytr)) ytr).shape1 = 2 := by
  rcases mainTrace_completes_or_aborts lib Xtr ytr Xte yte with ⟨_, hlen⟩ | ⟨hs, _⟩
  · exact ⟨hlen, rfl⟩
  · rw [h] at hs; simp at hs

/-- Evaluation of C6 on a concrete completed run: both features are
selected and the weight table has two rows and two columns. -/
theorem C6_weight_len_witness :
    (mainTrace trivLib dfX2 dfY1 dfX2 dfY1).2 = none ∧
      ((weightTable trivLib (selectCols dfX2 (trivLib.rfecvSupport dfX2 dfY1)) dfY1).len
          = nFeatures (trivLib.rfecvSupport dfX2 dfY1) ∧
        (weightTable trivLib (selectCols dfX2 (trivLib.rfecvSupport dfX2 dfY1)) dfY1).shape1 = 2) :=
  ⟨mainTrace_triv_completes,
   C6_weight_len_eq_selected trivLib dfX2 dfY1 dfX2 dfY1 mainTrace_triv_completes⟩

/-- C7: the error curve has exactly `total_features - 1` entries, whose
feature counts are `1, 2, ..., total_features - 1` in increasing order,
and every entry carries a training and a test error, each `1 - accuracy`
of the RFE model refit at that feature count, lying in `[0, 1]`. -/
theorem C7_errorCurve_shape_and_bounds (lib : MLLib) (Xtr ytr Xte yte : DataFrame) :
    (errorCurve lib Xtr ytr Xte yte).length = Xtr.shape1 - 1 ∧
      (errorCurve lib Xtr ytr Xte yte).map (fun e => e.1) = List.range' 1 (Xtr.shape1 - 1) ∧
      ∀ e ∈ errorCurve lib Xtr ytr Xte yte,
        0 ≤ e.2.1 ∧ e.2.1 ≤ 1 ∧ 0 ≤ e.2.2 ∧ e.2.2 ≤ 1 := by
  refine ⟨by simp [errorCurve, DataFrame.shape1], ?_, ?_⟩
  · simp only [errorCurve, List.map_map]
    exact List.map_id' _
  · intro e he
    simp only [errorCurve, List.mem_map] at he
    obtain ⟨i, _, rfl⟩ := he
    have h1 := score_nonneg (lib.rfePredict i Xtr ytr Xtr) ytr.labels
    have h2 := score_le_one (lib.rfePredict i Xtr ytr Xtr) ytr.labels
    have h3 := score_nonneg (lib.rfePredict i Xtr ytr Xte) yte.labels
    have h4 := score_le_one (lib.rfePredict i Xtr ytr Xte) yte.labels
    exact ⟨by simpa using h2, by simpa using h1, by simpa using h4, by simpa using h3⟩

/-- Concrete evaluation: the trivial two-feature run sweeps the single
feature count 1 with zero training and test error. -/
theorem errorCurve_triv : errorCurve trivLib dfX2 dfY1 dfX2 dfY1 = [(1, 0, 0)] := by
  norm_num [errorCurve, trivLib, dfX2, dfY1, DataFrame.labels, score,
    List.countP, List.countP.go, List.range']

/-- Evaluation of C7 on the concrete two-feature run: the single entry has
feature count 1 and both errors equal 0, inside the unit interval. -/
theorem C7_errorCurve_witness :
    ((1:Nat), ((0:ℚ), (0:ℚ))) ∈ errorCurve trivLib dfX2 dfY1 dfX2 dfY1 ∧
      ((0:ℚ) ≤ (0:ℚ) ∧ (0:ℚ) ≤ 1 ∧ (0:ℚ) ≤ (0:ℚ) ∧ (0:ℚ) ≤ 1) :=
  ⟨by simp [errorCurve_triv],
   (C7_errorCurve_shape_and_bounds trivLib dfX2 dfY1 dfX2 dfY1).2.2
     ((1:Nat), ((0:ℚ), (0:ℚ))) (by simp [errorCurve_triv])⟩

/-- C8: the support mask returned by the cross-validated feature selector
has one entry per original training feature column, and projecting both
the train and the test table by that one mask yields equal selected column
counts whenever the two tables have equal column counts (which the line-76
assertion guarantees for any run that proceeds). -/
theorem C8_mask_length_and_consistent_projection (lib : MLLib) (Xtr ytr Xte : DataFrame)
    (hcols : Xtr.shape1 = Xte.shape1) :
    (lib.rfecvSupport Xtr ytr).length = Xtr.shape1 ∧
      (selectCols Xtr (lib.rfecvSupport Xtr ytr)).shape1
        = (selectCols Xte (lib.rfecvSupport Xtr ytr)).shape1 :=
  ⟨lib.rfecvSupport_length Xtr ytr,
   maskFilter_length_eq (lib.rfecvSupport Xtr ytr) Xtr.cols Xte.cols hcols⟩

/-- Evaluation of C8 on the concrete two-feature tables. -/
theorem C8_mask_witness :
    dfX2.shape1 = dfX2.shape1 ∧
      ((trivLib.rfecvSupport dfX2 dfY1).length = dfX2.shape1 ∧
        (selectCols dfX2 (trivLib.rfecvSupport dfX2 dfY1)).shape1
          = (selectCols dfX2 (trivLib.rfecvSupport dfX2 dfY1)).shape1) :=
  ⟨rfl, C8_mask_length_and_consistent_projection trivLib dfX2 dfY1 dfX2 rfl⟩

/-- C9: the weights recorded in the weight table are the coefficients
rounded to exactly 4 decimal places (line 110) — the pre-sort weight
column is the image of the coefficient list under the 4-decimal rounding,
every weight in the sorted table is an integer multiple of `1/10000` —
and the sort compares these rounded magnitudes (the sorted rows are
pairwise ordered by descending absolute rounded weight). -/
theorem C9_weights_rounded_before_sort (lib : MLLib) (Xsel ytr : DataFrame) :
    ((weightPairs lib Xsel ytr).map Prod.snd = (lib.lrCoef Xsel ytr).map round4) ∧
      (∀ p ∈ weightDf lib Xsel ytr, (p.2 * 10000).den = 1) ∧
      (weightDf lib Xsel ytr).Pairwise (fun a b => |b.2| ≤ |a.2|) := by
  refine ⟨?_, ?_, List.sorted_insertionSort wOrder _⟩
  · apply List.map_snd_zip
    simp [lib.lrCoef_length]
  · intro p hp
    have hp2 : p ∈ weightPairs lib Xsel ytr := (List.perm_insertionSort wOrder _).subset hp
    have h2 := (List.of_mem_zip hp2).2
    simp only [List.mem_map] at h2
    obtain ⟨c, _, hc⟩ := h2
    rw [← hc]
    exact round4_mul_den c

/-- Concrete evaluation: the trivial weight table pairs both feature names
with the rounded zero coefficient. -/
theorem weightDf_triv : weightDf trivLib dfX2 dfY1 = [("f1", 0), ("f2", 0)] := by
  norm_num [weightDf, weightPairs, trivLib, dfX2, dfY1, round4, roundHalfEven,
    List.insertionSort, List.orderedInsert, wOrder]

/-- Evaluation of C9 on the concrete run: the recorded weight 0 is an
exact 4-decimal value. -/
theorem C9_weights_witness :
    ("f1", (0:ℚ)) ∈ weightDf trivLib dfX2 dfY1 ∧ (((0:ℚ) * 10000).den = 1) :=
  ⟨by simp [weightDf_triv],
   (C9_weights_rounded_before_sort trivLib dfX2 dfY1).2.1 ("f1", (0:ℚ))
     (by simp [weightDf_triv])⟩

/-- C10: projecting a table by the support mask changes only its columns:
the selected table has the same row count as the original, and each of its
rows is, in place, the mask projection of the row of the original table at
the same position. -/
theorem C10_selectCols_keeps_rows (X : DataFrame) (m : List Bool) :
    (selectCols X m).shape0 = X.shape0 ∧
      ∀ p ∈ X.rows.zip (selectCols X m).rows, p.2 = maskFilter m p.1 := by
  refine ⟨by simp [selectCols, DataFrame.shape0], ?_⟩
  intro p hp
  exact snd_eq_of_mem_zip_map hp

/-- Evaluation of C10 on the concrete table: the single selected row is
the mask projection of the single original row. -/
theorem C10_selectCols_witness :
    ([(1:ℚ), 0], [(1:ℚ)]) ∈ dfX2.rows.zip (selectCols dfX2 [true, false]).rows ∧
      [(1:ℚ)] = maskFilter [true, false] [(1:ℚ), 0] :=
  ⟨by simp [dfX2, selectCols, maskFilter],
   (C10_selectCols_keeps_rows dfX2 [true, false]).2 ([(1:ℚ), 0], [(1:ℚ)])
     (by simp [dfX2, selectCols, maskFilter])⟩
